import Mathlib

/-!
Verification of `observability_charm_tools.status_handling.status_manager`
(canonical/observability-charm-tools).

The embedding models:
  * ops status instances (`StatusValue`): the four recognized status classes
    `BlockedStatus`, `WaitingStatus`, `MaintenanceStatus`, `ActiveStatus`,
    plus instances of any other class (an object that is not an instance of
    any of the four), each carrying a free-text message;
  * exception classes (`ExcKind`) with the repository's own hierarchy
    (`BaseStatusError` and its three subclasses) plus arbitrary derived and
    foreign exception classes; dictionary lookup is by exact class equality;
  * the mapping-table universe (`MapKey`, `MapValue`): python objects that may
    or may not be classes, and classes that may or may not subclass
    `Exception` / `StatusBase`;
  * `_validate_status_map`, `DEFAULT_STATUS_MAP`, `StatusManager.__init__`,
    `__enter__`/`__exit__` (as `runScope`), `__len__`, `worst`, and
    `get_first_worst_status`, translated clause by clause from the source.
-/

/-- A concrete ops status instance.  The four recognized classes are disjoint
siblings in ops, so `isinstance` against each of them distinguishes exactly the
constructor.  `otherStatus cls msg` is an instance of some class `cls` that is
not an instance of any of the four recognized classes (for example `StatusBase`
itself, another `StatusBase` subclass, or a foreign object). -/
inductive StatusValue where
  | blocked (msg : String)
  | waiting (msg : String)
  | maintenance (msg : String)
  | active (msg : String)
  | otherStatus (cls : String) (msg : String)
deriving DecidableEq

/-- Python `isinstance(status, BlockedStatus)`. -/
def StatusValue.isBlocked : StatusValue → Bool
  | .blocked _ => true
  | _ => false

/-- Python `isinstance(status, WaitingStatus)`. -/
def StatusValue.isWaiting : StatusValue → Bool
  | .waiting _ => true
  | _ => false

/-- Python `isinstance(status, MaintenanceStatus)`. -/
def StatusValue.isMaintenance : StatusValue → Bool
  | .maintenance _ => true
  | _ => false

/-- Python `isinstance(status, ActiveStatus)`. -/
def StatusValue.isActive : StatusValue → Bool
  | .active _ => true
  | _ => false

/-- A status instance of one of the four recognized status classes. -/
def isRecognized : StatusValue → Bool
  | .otherStatus _ _ => false
  | _ => true

/-- The message carried by a status instance. -/
def msgOf : StatusValue → String
  | .blocked m => m
  | .waiting m => m
  | .maintenance m => m
  | .active m => m
  | .otherStatus _ m => m

/-- Python `x or y` for variables that hold either `None` or a status object.
ops status instances define no `__bool__`, so a bound status object is always
truthy; only `None` falls through to the right operand. -/
def pyOr (a b : Option StatusValue) : Option StatusValue :=
  match a with
  | some x => some x
  | none => b

/-- The four local variables of the scan loop in `get_first_worst_status`
(`blocked`, `waiting`, `maintenance`, `active`), each `None` or a status. -/
structure LoopState where
  blocked : Option StatusValue
  waiting : Option StatusValue
  maintenance : Option StatusValue
  active : Option StatusValue
deriving DecidableEq

/-- The two errors `get_first_worst_status` can raise: the `ValueError` on an
empty input and the `TypeError` naming a status outside the four recognized
classes. -/
inductive SelectorError where
  | emptyInput (msg : String)
  | unrecognizedStatus (s : StatusValue)
deriving DecidableEq

/-- The `for status in statuses:` loop of `get_first_worst_status`.  A
`BlockedStatus` is stored and the loop breaks immediately; each of the other
three recognized classes keeps the first instance seen (`waiting = waiting or
status`, etc.); anything else raises the `TypeError`. -/
def selectorLoop : LoopState → List StatusValue → Except SelectorError LoopState
  | st, [] => .ok st
  | st, s :: rest =>
    if s.isBlocked then
      .ok { st with blocked := some s }
    else if s.isWaiting then
      selectorLoop { st with waiting := pyOr st.waiting (some s) } rest
    else if s.isMaintenance then
      selectorLoop { st with maintenance := pyOr st.maintenance (some s) } rest
    else if s.isActive then
      selectorLoop { st with active := pyOr st.active (some s) } rest
    else
      .error (.unrecognizedStatus s)

/-- Runs the scan loop from a given state and then evaluates the final
`status = blocked or waiting or maintenance or active` of
`get_first_worst_status` (the returned `Option` carries the possibility that
every local variable is still `None`, in which case python returns `None`). -/
def loopResult (st : LoopState) (l : List StatusValue) :
    Except SelectorError (Option StatusValue) :=
  match selectorLoop st l with
  | .error e => .error e
  | .ok st2 => .ok (pyOr st2.blocked (pyOr st2.waiting (pyOr st2.maintenance st2.active)))

/-- `get_first_worst_status(statuses)`: raises `ValueError("No statuses
provided")` on an empty list, otherwise scans the list with all four local
variables starting at `None` and returns
`blocked or waiting or maintenance or active`. -/
def get_first_worst_status (statuses : List StatusValue) :
    Except SelectorError (Option StatusValue) :=
  if statuses.length = 0 then .error (.emptyInput "No statuses provided")
  else loopResult ⟨none, none, none, none⟩ statuses

/-- Modelled from the spec: the selector contract of §4.3 stated
tier-by-tier — the earliest Blocked if any, else the earliest Waiting, else the
earliest Maintenance, else the earliest Active.  Used only to compare the
source's loop against the spec's wording. -/
def specFirstWorst (l : List StatusValue) : Option StatusValue :=
  pyOr (l.find? StatusValue.isBlocked)
    (pyOr (l.find? StatusValue.isWaiting)
      (pyOr (l.find? StatusValue.isMaintenance) (l.find? StatusValue.isActive)))

/-- Exception classes.  The repository defines `BaseStatusError` (a subclass of
`Exception`) and its three subclasses; `derived p n` is a user-defined proper
subclass named `n` of the class `p`; `otherExc n` is any other `Exception`
subclass.  Two classes are equal exactly when they are the same constructor
with the same arguments, mirroring class identity in python. -/
inductive ExcKind where
  | baseStatusError
  | blockedStatusError
  | waitingStatusError
  | maintenanceStatusError
  | derived (parent : ExcKind) (name : String)
  | otherExc (name : String)
deriving DecidableEq

/-- A raised exception instance: its exact class and its message
(`str(exc_val)`). -/
structure ExcInstance where
  kind : ExcKind
  msg : String
deriving DecidableEq

/-- A python object used as a key of a proposed status map: a class that is a
subclass of `Exception`, a class that is not, or a non-class object. -/
inductive MapKey where
  | excClass (k : ExcKind)
  | nonExcClass (name : String)
  | notAClass (name : String)
deriving DecidableEq

/-- A class that is a subclass of `StatusBase`: one of the four recognized
status classes, `StatusBase` itself, or any other `StatusBase` subclass
(ops also ships e.g. `UnknownStatus` and `ErrorStatus`). -/
inductive StatusClass where
  | blockedStatusClass
  | waitingStatusClass
  | maintenanceStatusClass
  | activeStatusClass
  | statusBaseClass
  | otherStatusClass (name : String)
deriving DecidableEq

/-- Whether a `StatusBase` subclass is one of the four recognized status
classes of the spec's four tiers. -/
def isRecognizedTierClass : StatusClass → Bool
  | .blockedStatusClass => true
  | .waitingStatusClass => true
  | .maintenanceStatusClass => true
  | .activeStatusClass => true
  | _ => false

/-- A python object used as a value of a proposed status map: a class that is
a subclass of `StatusBase`, a class that is not, or a non-class object. -/
inductive MapValue where
  | statusClass (c : StatusClass)
  | nonStatusClass (name : String)
  | notAClass (name : String)
deriving DecidableEq

/-- The `TypeError`s `_validate_status_map` can raise, each naming the
offending key or value exactly as the source's f-strings do. -/
inductive ValidationError where
  | keyNotException (k : MapKey)
  | keyNotClass (k : MapKey)
  | valueNotStatusBase (v : MapValue)
  | valueNotClass (v : MapValue)
deriving DecidableEq

/-- One iteration of `_validate_status_map`: `issubclass(key, Exception)`
raises `TypeError` on a non-class (re-raised as "not a class"), is `False` for
a class not subclassing `Exception`; then the same for the value against
`StatusBase`. -/
def validateEntry (k : MapKey) (v : MapValue) : Except ValidationError Unit :=
  match k with
  | .notAClass _ => .error (.keyNotClass k)
  | .nonExcClass _ => .error (.keyNotException k)
  | .excClass _ =>
    match v with
    | .notAClass _ => .error (.valueNotClass v)
    | .nonStatusClass _ => .error (.valueNotStatusBase v)
    | .statusClass _ => .ok ()

/-- `_validate_status_map`: validate every entry in iteration order, stopping
at the first offending entry. -/
def _validate_status_map : List (MapKey × MapValue) → Except ValidationError Unit
  | [] => .ok ()
  | (k, v) :: rest =>
    match validateEntry k v with
    | .error e => .error e
    | .ok _ => _validate_status_map rest

/-- `DEFAULT_STATUS_MAP`: `BlockedStatusError ↦ BlockedStatus`,
`WaitingStatusError ↦ WaitingStatus`, `MaintenanceStatusError ↦
MaintenanceStatus`. -/
def DEFAULT_STATUS_MAP : List (MapKey × MapValue) :=
  [ (.excClass .blockedStatusError, .statusClass .blockedStatusClass),
    (.excClass .waitingStatusError, .statusClass .waitingStatusClass),
    (.excClass .maintenanceStatusError, .statusClass .maintenanceStatusClass) ]

/-- The state of a `StatusManager`: its `statuses` list and its
`_status_map` (keys unique in a python dict; association list keeps insertion
order, lookup takes the first match). -/
structure StatusManagerState where
  statuses : List StatusValue
  status_map : List (MapKey × MapValue)
deriving DecidableEq

/-- `StatusManager.__init__(status_map)`: start with an empty `statuses`
list; if the argument is `None` or an empty (falsy) dict, use
`DEFAULT_STATUS_MAP`; validate; store. -/
def StatusManager.init (status_map : Option (List (MapKey × MapValue))) :
    Except ValidationError StatusManagerState :=
  let m := match status_map with
    | none => DEFAULT_STATUS_MAP
    | some l => if l.isEmpty then DEFAULT_STATUS_MAP else l
  match _validate_status_map m with
  | .error e => .error e
  | .ok _ => .ok ⟨[], m⟩

/-- `self._status_map[exc_type]` when `exc_type` is the class `k`: dictionary
lookup by exact class equality (no subtype matching). -/
def lookupStatusMap : List (MapKey × MapValue) → ExcKind → Option MapValue
  | [], _ => none
  | (key, v) :: rest, k =>
    if key = MapKey.excClass k then some v else lookupStatusMap rest k

/-- `status_type(str(exc_val))`: the instance obtained by calling a recognized
status class (or another class) with the message as its single argument. -/
def constructStatus (c : StatusClass) (msg : String) : StatusValue :=
  match c with
  | .blockedStatusClass => .blocked msg
  | .waitingStatusClass => .waiting msg
  | .maintenanceStatusClass => .maintenance msg
  | .activeStatusClass => .active msg
  | .statusBaseClass => .otherStatus "StatusBase" msg
  | .otherStatusClass n => .otherStatus n msg

/-- Calling a stored map value on the message.  A class returns an instance of
itself (an instance of a non-`StatusBase` class is not an instance of any of
the four recognized classes, hence `otherStatus`); calling a non-class object
raises a `TypeError`, modelled as the error case.  For a map accepted by
`_validate_status_map` the value is always a `statusClass`. -/
def pyCall (v : MapValue) (msg : String) : Except String StatusValue :=
  match v with
  | .statusClass c => .ok (constructStatus c msg)
  | .nonStatusClass n => .ok (.otherStatus n msg)
  | .notAClass n => .error n

/-- `StatusManager.__exit__(exc_type, exc_val, exc_tb)`: look the raised
exception's exact class up in `_status_map` (when nothing was raised,
`exc_type` is `None`, which is not a key, so the lookup raises `KeyError` and
the method returns `False`); on a hit, append `status_type(str(exc_val))` to
`statuses` and return `True` (suppress); on a miss return `False`.
The `Bool` is the return value; the `Except.error` case is `__exit__` itself
raising while calling a non-class value (unreachable for validated maps). -/
def StatusManager.exit (sm : StatusManagerState) (exc : Option ExcInstance) :
    Except String (Bool × StatusManagerState) :=
  match exc with
  | none => .ok (false, sm)
  | some e =>
    match lookupStatusMap sm.status_map e.kind with
    | none => .ok (false, sm)
    | some v =>
      match pyCall v e.msg with
      | .error err => .error err
      | .ok status => .ok (true, { sm with statuses := sm.statuses ++ [status] })

/-- The outcome of one `with status_manager:` scope around a task that either
returns normally (`exc = none`) or raises `exc = some e`. -/
inductive ScopeResult where
  | ok (sm : StatusManagerState)
  | raised (e : ExcInstance) (sm : StatusManagerState)
  | exitRaised (err : String) (sm : StatusManagerState)
deriving DecidableEq

/-- One scope: `__enter__` returns `self` and always succeeds; on exit,
`__exit__` decides whether the raised exception (if any) is suppressed.
A `False` return with a raised exception lets it propagate unchanged. -/
def runScope (sm : StatusManagerState) (exc : Option ExcInstance) : ScopeResult :=
  match StatusManager.exit sm exc with
  | .error err => .exitRaised err sm
  | .ok (true, sm2) => .ok sm2
  | .ok (false, sm2) =>
    match exc with
    | none => .ok sm2
    | some e => .raised e sm2

/-- A sequence of scoped task executions on the same manager; a propagating
exception aborts the caller's loop. -/
def runScopes (sm : StatusManagerState) (excs : List (Option ExcInstance)) : ScopeResult :=
  match excs with
  | [] => .ok sm
  | exc :: rest =>
    match runScope sm exc with
    | .ok sm2 => runScopes sm2 rest
    | .raised e sm2 => .raised e sm2
    | .exitRaised err sm2 => .exitRaised err sm2

/-- `StatusManager.__len__`. -/
def StatusManager.len (sm : StatusManagerState) : Nat :=
  sm.statuses.length

/-- `StatusManager.worst()`: `ActiveStatus("")` when no statuses are recorded,
otherwise `get_first_worst_status(self.statuses)`. -/
def StatusManager.worst (sm : StatusManagerState) :
    Except SelectorError (Option StatusValue) :=
  if StatusManager.len sm = 0 then .ok (some (.active ""))
  else get_first_worst_status sm.statuses

/-- Whether a lookup result is a hit on a class that subclasses `StatusBase`
(the only kind of value a validated map can hold). -/
def isStatusClassValue : Option MapValue → Bool
  | some (.statusClass _) => true
  | _ => false

/-- The status that a scope records for an exception whose class is mapped to
a `StatusBase` subclass (meaningful only under `isStatusClassValue`). -/
def mappedStatus (m : List (MapKey × MapValue)) (e : ExcInstance) : StatusValue :=
  match lookupStatusMap m e.kind with
  | some (.statusClass c) => constructStatus c e.msg
  | _ => .otherStatus "unmapped" e.msg

/-- A map key that `_validate_status_map` accepts: a subclass of `Exception`. -/
def goodKey : MapKey → Bool
  | .excClass _ => true
  | _ => false

/-- A map value that `_validate_status_map` accepts: a subclass of
`StatusBase`. -/
def goodValue : MapValue → Bool
  | .statusClass _ => true
  | _ => false

/-! ### Helper lemmas about `pyOr` and the scan loop -/

theorem pyOr_none_left (b : Option StatusValue) : pyOr none b = b := rfl

theorem pyOr_some_left (a : StatusValue) (b : Option StatusValue) :
    pyOr (some a) b = some a := rfl

theorem pyOr_none_right (a : Option StatusValue) : pyOr a none = a := by
  cases a <;> rfl

theorem pyOr_assoc (a b c : Option StatusValue) :
    pyOr (pyOr a b) c = pyOr a (pyOr b c) := by
  cases a <;> rfl

theorem pyOr_isSome (a b : Option StatusValue) :
    (pyOr a b).isSome = (a.isSome || b.isSome) := by
  cases a <;> simp [pyOr]

theorem pyOr_eq_some (a b : Option StatusValue) (s : StatusValue)
    (h : pyOr a b = some s) : a = some s ∨ b = some s := by
  cases a with
  | none => exact Or.inr h
  | some x => exact Or.inl h

theorem pyOr_absorb (a : Option StatusValue) (w : StatusValue) (c : Option StatusValue) :
    pyOr (pyOr a (some w)) c = pyOr a (some w) := by
  cases a <;> rfl

/-- The scan loop of `get_first_worst_status`, characterized over lists whose
members are all recognized: starting from a state whose `blocked` slot is
still `None`, the final `blocked or waiting or maintenance or active` equals
the first Blocked member if any, else the first-seen member of each remaining
tier in priority order, seeded by the incoming state. -/
theorem loopResult_spec (l : List StatusValue) :
    ∀ st : LoopState, (∀ s ∈ l, isRecognized s = true) → st.blocked = none →
    loopResult st l =
      .ok (pyOr (l.find? StatusValue.isBlocked)
        (pyOr (pyOr st.waiting (l.find? StatusValue.isWaiting))
          (pyOr (pyOr st.maintenance (l.find? StatusValue.isMaintenance))
            (pyOr st.active (l.find? StatusValue.isActive))))) := by
  induction l with
  | nil =>
    intro st _ hb
    have hL : loopResult st [] =
        .ok (pyOr st.blocked (pyOr st.waiting (pyOr st.maintenance st.active))) := rfl
    rw [hL, hb, pyOr_none_left]
    rw [show (List.find? StatusValue.isBlocked [] : Option StatusValue) = none from rfl]
    rw [show (List.find? StatusValue.isWaiting [] : Option StatusValue) = none from rfl]
    rw [show (List.find? StatusValue.isMaintenance [] : Option StatusValue) = none from rfl]
    rw [show (List.find? StatusValue.isActive [] : Option StatusValue) = none from rfl]
    rw [pyOr_none_left, pyOr_none_right, pyOr_none_right, pyOr_none_right]
  | cons s rest ih =>
    intro st hrec hb
    have hs : isRecognized s = true := hrec s (List.mem_cons_self s rest)
    have hrest : ∀ x ∈ rest, isRecognized x = true :=
      fun x hx => hrec x (List.mem_cons_of_mem _ hx)
    cases s with
    | blocked m => rfl
    | waiting m =>
      have hstep : loopResult st (StatusValue.waiting m :: rest) =
          loopResult { st with waiting := pyOr st.waiting (some (StatusValue.waiting m)) }
            rest := rfl
      rw [hstep,
        ih { st with waiting := pyOr st.waiting (some (StatusValue.waiting m)) } hrest hb,
        pyOr_absorb st.waiting (StatusValue.waiting m) (rest.find? StatusValue.isWaiting)]
      rfl
    | maintenance m =>
      have hstep : loopResult st (StatusValue.maintenance m :: rest) =
          loopResult
            { st with maintenance := pyOr st.maintenance (some (StatusValue.maintenance m)) }
            rest := rfl
      rw [hstep,
        ih { st with maintenance := pyOr st.maintenance (some (StatusValue.maintenance m)) }
          hrest hb,
        pyOr_absorb st.maintenance (StatusValue.maintenance m)
          (rest.find? StatusValue.isMaintenance)]
      rfl
    | active m =>
      have hstep : loopResult st (StatusValue.active m :: rest) =
          loopResult { st with active := pyOr st.active (some (StatusValue.active m)) }
            rest := rfl
      rw [hstep,
        ih { st with active := pyOr st.active (some (StatusValue.active m)) } hrest hb,
        pyOr_absorb st.active (StatusValue.active m) (rest.find? StatusValue.isActive)]
      rfl
    | otherStatus c m =>
      simp [isRecognized] at hs

/-- On a non-empty list of recognized statuses, `get_first_worst_status`
computes exactly the spec-side tier-by-tier selection `specFirstWorst`. -/
theorem gfws_eq_spec (l : List StatusValue) (h1 : l ≠ [])
    (h2 : ∀ s ∈ l, isRecognized s = true) :
    get_first_worst_status l = .ok (specFirstWorst l) := by
  have hlen : ¬ l.length = 0 := by
    cases l with
    | nil => exact absurd rfl h1
    | cons a t => simp
  have := loopResult_spec l ⟨none, none, none, none⟩ h2 rfl
  simp only [pyOr_none_left] at this
  rw [get_first_worst_status, if_neg hlen, this, specFirstWorst]

/-- A non-empty all-recognized list makes the tier-by-tier selection succeed. -/
theorem specFirstWorst_isSome (x : StatusValue) (rest : List StatusValue)
    (hx : isRecognized x = true) :
    (specFirstWorst (x :: rest)).isSome = true := by
  cases x <;>
    simp [specFirstWorst, List.find?, StatusValue.isBlocked, StatusValue.isWaiting,
      StatusValue.isMaintenance, StatusValue.isActive, pyOr_isSome, isRecognized] at hx ⊢

/-- Whatever the tier-by-tier selection returns is a member of the input. -/
theorem specFirstWorst_mem (l : List StatusValue) (s : StatusValue)
    (h : specFirstWorst l = some s) : s ∈ l := by
  rw [specFirstWorst] at h
  rcases pyOr_eq_some _ _ _ h with h1 | h1
  · exact List.mem_of_find?_eq_some h1
  rcases pyOr_eq_some _ _ _ h1 with h2 | h2
  · exact List.mem_of_find?_eq_some h2
  rcases pyOr_eq_some _ _ _ h2 with h3 | h3
  · exact List.mem_of_find?_eq_some h3
  · exact List.mem_of_find?_eq_some h3

theorem find?_none_of_any_false (l : List StatusValue) (p : StatusValue → Bool)
    (h : l.any p = false) : l.find? p = none := by
  rw [List.find?_eq_none]
  intro x hx
  have := List.any_eq_false.mp h x hx
  simp [this]

theorem find?_some_of_any_true (l : List StatusValue) (p : StatusValue → Bool)
    (h : l.any p = true) : ∃ s, l.find? p = some s := by
  rcases List.any_eq_true.mp h with ⟨x, hx, hpx⟩
  have : (l.find? p).isSome = true := List.find?_isSome.mpr ⟨x, hx, hpx⟩
  exact Option.isSome_iff_exists.mp this

/-- The scan raises the `TypeError` at the first unrecognized status when no
Blocked status precedes it: every element before it is recognized and not a
`BlockedStatus`, so the loop neither breaks nor errors before reaching it. -/
theorem selectorLoop_error_at_unrecognized (pre : List StatusValue) :
    ∀ (st : LoopState) (x : StatusValue) (post : List StatusValue),
    (∀ s ∈ pre, isRecognized s = true ∧ s.isBlocked = false) →
    isRecognized x = false →
    selectorLoop st (pre ++ x :: post) = .error (.unrecognizedStatus x) := by
  induction pre with
  | nil =>
    intro st x post _ hx
    cases x with
    | otherStatus c m => rfl
    | blocked m => simp [isRecognized] at hx
    | waiting m => simp [isRecognized] at hx
    | maintenance m => simp [isRecognized] at hx
    | active m => simp [isRecognized] at hx
  | cons s pre ih =>
    intro st x post hpre hx
    obtain ⟨hr, hnb⟩ := hpre s (List.mem_cons_self s pre)
    have hpre2 : ∀ y ∈ pre, isRecognized y = true ∧ y.isBlocked = false :=
      fun y hy => hpre y (List.mem_cons_of_mem _ hy)
    cases s with
    | blocked m => simp [StatusValue.isBlocked] at hnb
    | otherStatus c m => simp [isRecognized] at hr
    | waiting m =>
      have hstep : selectorLoop st ((StatusValue.waiting m :: pre) ++ x :: post) =
          selectorLoop { st with waiting := pyOr st.waiting (some (StatusValue.waiting m)) }
            (pre ++ x :: post) := rfl
      rw [hstep, ih _ x post hpre2 hx]
    | maintenance m =>
      have hstep : selectorLoop st ((StatusValue.maintenance m :: pre) ++ x :: post) =
          selectorLoop
            { st with maintenance := pyOr st.maintenance (some (StatusValue.maintenance m)) }
            (pre ++ x :: post) := rfl
      rw [hstep, ih _ x post hpre2 hx]
    | active m =>
      have hstep : selectorLoop st ((StatusValue.active m :: pre) ++ x :: post) =
          selectorLoop { st with active := pyOr st.active (some (StatusValue.active m)) }
            (pre ++ x :: post) := rfl
      rw [hstep, ih _ x post hpre2 hx]

/-- Running a sequence of scopes whose exceptions all have mapped classes:
every exception is suppressed and the corresponding statuses are appended in
order. -/
theorem runScopes_mapped (m : List (MapKey × MapValue)) (es : List ExcInstance) :
    ∀ acc : List StatusValue,
    (∀ e ∈ es, isStatusClassValue (lookupStatusMap m e.kind) = true) →
    runScopes ⟨acc, m⟩ (es.map some) = .ok ⟨acc ++ es.map (mappedStatus m), m⟩ := by
  induction es with
  | nil =>
    intro acc _
    simp [runScopes]
  | cons e rest ih =>
    intro acc h
    have he := h e (List.mem_cons_self e rest)
    have hrest : ∀ x ∈ rest, isStatusClassValue (lookupStatusMap m x.kind) = true :=
      fun x hx => h x (List.mem_cons_of_mem _ hx)
    cases hl : lookupStatusMap m e.kind with
    | none => rw [hl] at he; simp [isStatusClassValue] at he
    | some v =>
      cases v with
      | nonStatusClass n => rw [hl] at he; simp [isStatusClassValue] at he
      | notAClass n => rw [hl] at he; simp [isStatusClassValue] at he
      | statusClass c =>
        have hscope : runScope ⟨acc, m⟩ (some e) =
            .ok ⟨acc ++ [constructStatus c e.msg], m⟩ := by
          rw [runScope, StatusManager.exit, hl]
          rfl
        have hmap : mappedStatus m e = constructStatus c e.msg := by
          rw [mappedStatus, hl]
        rw [List.map_cons, runScopes, hscope]
        show runScopes ⟨acc ++ [constructStatus c e.msg], m⟩ (List.map some rest) =
          ScopeResult.ok ⟨acc ++ List.map (mappedStatus m) (e :: rest), m⟩
        rw [ih (acc ++ [constructStatus c e.msg]) hrest, List.map_cons, hmap,
          List.append_assoc, List.singleton_append]

/-- A status map whose entries are all good keys and good values passes
`_validate_status_map`. -/
theorem validate_ok_of_all_good (entries : List (MapKey × MapValue))
    (h : entries.all (fun kv => goodKey kv.1 && goodValue kv.2) = true) :
    _validate_status_map entries = .ok () := by
  induction entries with
  | nil => rfl
  | cons kv rest ih =>
    rw [List.all_cons, Bool.and_eq_true] at h
    obtain ⟨hkv, hrest⟩ := h
    rw [Bool.and_eq_true] at hkv
    obtain ⟨hk, hv⟩ := hkv
    obtain ⟨k, v⟩ := kv
    cases k with
    | excClass ek =>
      cases v with
      | statusClass c =>
        have : _validate_status_map ((MapKey.excClass ek, MapValue.statusClass c) :: rest) =
            _validate_status_map rest := rfl
        rw [this, ih hrest]
      | nonStatusClass n => simp [goodValue] at hv
      | notAClass n => simp [goodValue] at hv
    | nonExcClass n => simp [goodKey] at hk
    | notAClass n => simp [goodKey] at hk

/-- A status map with an offending key or value makes `_validate_status_map`
raise. -/
theorem validate_error_of_bad (entries : List (MapKey × MapValue))
    (h : entries.all (fun kv => goodKey kv.1 && goodValue kv.2) = false) :
    ∃ err, _validate_status_map entries = .error err := by
  induction entries with
  | nil => simp [List.all_nil] at h
  | cons kv rest ih =>
    obtain ⟨k, v⟩ := kv
    cases k with
    | nonExcClass n =>
      exact ⟨.keyNotException (.nonExcClass n), rfl⟩
    | notAClass n =>
      exact ⟨.keyNotClass (.notAClass n), rfl⟩
    | excClass ek =>
      cases v with
      | nonStatusClass n => exact ⟨.valueNotStatusBase (.nonStatusClass n), rfl⟩
      | notAClass n => exact ⟨.valueNotClass (.notAClass n), rfl⟩
      | statusClass c =>
        rw [List.all_cons] at h
        simp only [goodKey, goodValue, Bool.true_and] at h
        obtain ⟨err, herr⟩ := ih h
        refine ⟨err, ?_⟩
        have : _validate_status_map ((MapKey.excClass ek, MapValue.statusClass c) :: rest) =
            _validate_status_map rest := rfl
        rw [this, herr]

/-- The message of a constructed status is the message it was called with. -/
theorem msgOf_constructStatus (c : StatusClass) (msg : String) :
    msgOf (constructStatus c msg) = msg := by
  cases c <;> rfl

/-! ### Claims -/

/-- C1: for every non-empty sequence of statuses all in the four recognized
tiers, `get_first_worst_status` returns an element of the most severe tier
present, and among that tier the one appearing earliest in the sequence
(`find?` by tier, which never inspects messages). -/
theorem c1_selector_first_worst (l : List StatusValue) (h1 : l ≠ [])
    (h2 : ∀ s ∈ l, isRecognized s = true) :
    ∃ s, get_first_worst_status l = .ok (some s) ∧ s ∈ l ∧
      (l.any StatusValue.isBlocked = true → l.find? StatusValue.isBlocked = some s) ∧
      (l.any StatusValue.isBlocked = false → l.any StatusValue.isWaiting = true →
        l.find? StatusValue.isWaiting = some s) ∧
      (l.any StatusValue.isBlocked = false → l.any StatusValue.isWaiting = false →
        l.any StatusValue.isMaintenance = true →
        l.find? StatusValue.isMaintenance = some s) ∧
      (l.any StatusValue.isBlocked = false → l.any StatusValue.isWaiting = false →
        l.any StatusValue.isMaintenance = false →
        l.find? StatusValue.isActive = some s) := by
  cases l with
  | nil => exact absurd rfl h1
  | cons x rest =>
    have hsome := specFirstWorst_isSome x rest (h2 x (List.mem_cons_self x rest))
    obtain ⟨s, hs⟩ := Option.isSome_iff_exists.mp hsome
    refine ⟨s, ?_, specFirstWorst_mem _ s hs, ?_, ?_, ?_, ?_⟩
    · rw [gfws_eq_spec _ h1 h2, hs]
    · intro hb
      obtain ⟨b, hB⟩ := find?_some_of_any_true _ _ hb
      have hs2 := hs
      rw [specFirstWorst, hB, pyOr_some_left] at hs2
      rw [hB, hs2]
    · intro hb hw
      have hB := find?_none_of_any_false _ _ hb
      obtain ⟨w, hW⟩ := find?_some_of_any_true _ _ hw
      have hs2 := hs
      rw [specFirstWorst, hB, pyOr_none_left, hW, pyOr_some_left] at hs2
      rw [hW, hs2]
    · intro hb hw hm
      have hB := find?_none_of_any_false _ _ hb
      have hW := find?_none_of_any_false _ _ hw
      obtain ⟨a, hM⟩ := find?_some_of_any_true _ _ hm
      have hs2 := hs
      rw [specFirstWorst, hB, pyOr_none_left, hW, pyOr_none_left, hM,
        pyOr_some_left] at hs2
      rw [hM, hs2]
    · intro hb hw hm
      have hB := find?_none_of_any_false _ _ hb
      have hW := find?_none_of_any_false _ _ hw
      have hM := find?_none_of_any_false _ _ hm
      have hx : StatusValue.isActive x = true := by
        have h2x := h2 x (List.mem_cons_self x rest)
        have hbx := List.any_eq_false.mp hb x (List.mem_cons_self x rest)
        have hwx := List.any_eq_false.mp hw x (List.mem_cons_self x rest)
        have hmx := List.any_eq_false.mp hm x (List.mem_cons_self x rest)
        cases x <;> simp_all [isRecognized, StatusValue.isBlocked, StatusValue.isWaiting,
          StatusValue.isMaintenance, StatusValue.isActive]
      obtain ⟨a, hA⟩ := find?_some_of_any_true (x :: rest) StatusValue.isActive
        (by rw [List.any_cons, hx, Bool.true_or])
      have hs2 := hs
      rw [specFirstWorst, hB, pyOr_none_left, hW, pyOr_none_left, hM,
        pyOr_none_left, hA] at hs2
      rw [hA, hs2]

theorem c1_witness :
    ∃ s, get_first_worst_status
        [StatusValue.active "ok", StatusValue.waiting "first wait",
          StatusValue.maintenance "mnt", StatusValue.waiting "second wait"] =
        .ok (some s) ∧
      s ∈ [StatusValue.active "ok", StatusValue.waiting "first wait",
          StatusValue.maintenance "mnt", StatusValue.waiting "second wait"] ∧
      ([StatusValue.active "ok", StatusValue.waiting "first wait",
          StatusValue.maintenance "mnt", StatusValue.waiting "second wait"].any
            StatusValue.isBlocked = true →
        [StatusValue.active "ok", StatusValue.waiting "first wait",
          StatusValue.maintenance "mnt", StatusValue.waiting "second wait"].find?
            StatusValue.isBlocked = some s) ∧
      ([StatusValue.active "ok", StatusValue.waiting "first wait",
          StatusValue.maintenance "mnt", StatusValue.waiting "second wait"].any
            StatusValue.isBlocked = false →
        [StatusValue.active "ok", StatusValue.waiting "first wait",
          StatusValue.maintenance "mnt", StatusValue.waiting "second wait"].any
            StatusValue.isWaiting = true →
        [StatusValue.active "ok", StatusValue.waiting "first wait",
          StatusValue.maintenance "mnt", StatusValue.waiting "second wait"].find?
            StatusValue.isWaiting = some s) ∧
      ([StatusValue.active "ok", StatusValue.waiting "first wait",
          StatusValue.maintenance "mnt", StatusValue.waiting "second wait"].any
            StatusValue.isBlocked = false →
        [StatusValue.active "ok", StatusValue.waiting "first wait",
          StatusValue.maintenance "mnt", StatusValue.waiting "second wait"].any
            StatusValue.isWaiting = false →
        [StatusValue.active "ok", StatusValue.waiting "first wait",
          StatusValue.maintenance "mnt", StatusValue.waiting "second wait"].any
            StatusValue.isMaintenance = true →
        [StatusValue.active "ok", StatusValue.waiting "first wait",
          StatusValue.maintenance "mnt", StatusValue.waiting "second wait"].find?
            StatusValue.isMaintenance = some s) ∧
      ([StatusValue.active "ok", StatusValue.waiting "first wait",
          StatusValue.maintenance "mnt", StatusValue.waiting "second wait"].any
            StatusValue.isBlocked = false →
        [StatusValue.active "ok", StatusValue.waiting "first wait",
          StatusValue.maintenance "mnt", StatusValue.waiting "second wait"].any
            StatusValue.isWaiting = false →
        [StatusValue.active "ok", StatusValue.waiting "first wait",
          StatusValue.maintenance "mnt", StatusValue.waiting "second wait"].any
            StatusValue.isMaintenance = false →
        [StatusValue.active "ok", StatusValue.waiting "first wait",
          StatusValue.maintenance "mnt", StatusValue.waiting "second wait"].find?
            StatusValue.isActive = some s) :=
  c1_selector_first_worst
    [StatusValue.active "ok", StatusValue.waiting "first wait",
      StatusValue.maintenance "mnt", StatusValue.waiting "second wait"]
    (by decide) (by decide)

/-- C2: running N scopes on one manager, each raising an exception whose exact
class is mapped by the table, suppresses every exception; afterwards the
recorded count equals N and the i-th recorded status is the instance
constructed from the class mapped from the i-th exception's class, carrying
that exception's message verbatim, in insertion order. -/
theorem c2_mapped_errors_recorded (m : List (MapKey × MapValue))
    (es : List ExcInstance)
    (hm : ∀ e ∈ es, isStatusClassValue (lookupStatusMap m e.kind) = true) :
    ∃ sm, runScopes ⟨[], m⟩ (es.map some) = .ok sm ∧
      StatusManager.len sm = es.length ∧
      ∀ i e, es.get? i = some e → ∃ c,
        lookupStatusMap m e.kind = some (.statusClass c) ∧
        sm.statuses.get? i = some (constructStatus c e.msg) ∧
        msgOf (constructStatus c e.msg) = e.msg := by
  refine ⟨⟨es.map (mappedStatus m), m⟩, runScopes_mapped m es [] hm, ?_, ?_⟩
  · show (es.map (mappedStatus m)).length = es.length
    rw [List.length_map]
  · intro i e hie
    have he : e ∈ es := List.get?_mem hie
    have hval := hm e he
    cases hl : lookupStatusMap m e.kind with
    | none => rw [hl] at hval; simp [isStatusClassValue] at hval
    | some v =>
      cases v with
      | nonStatusClass n => rw [hl] at hval; simp [isStatusClassValue] at hval
      | notAClass n => rw [hl] at hval; simp [isStatusClassValue] at hval
      | statusClass c =>
        have hms : mappedStatus m e = constructStatus c e.msg := by
          unfold mappedStatus
          rw [hl]
        refine ⟨c, rfl, ?_, msgOf_constructStatus c e.msg⟩
        show (es.map (mappedStatus m)).get? i = some (constructStatus c e.msg)
        rw [List.get?_map, hie]
        show some (mappedStatus m e) = some (constructStatus c e.msg)
        rw [hms]

theorem c2_witness :
    ∃ sm, runScopes ⟨[], DEFAULT_STATUS_MAP⟩
        ([ExcInstance.mk .blockedStatusError "boom",
          ExcInstance.mk .waitingStatusError "later"].map some) = .ok sm ∧
      StatusManager.len sm =
        [ExcInstance.mk .blockedStatusError "boom",
          ExcInstance.mk .waitingStatusError "later"].length ∧
      ∀ i e, [ExcInstance.mk .blockedStatusError "boom",
          ExcInstance.mk .waitingStatusError "later"].get? i = some e → ∃ c,
        lookupStatusMap DEFAULT_STATUS_MAP e.kind = some (.statusClass c) ∧
        sm.statuses.get? i = some (constructStatus c e.msg) ∧
        msgOf (constructStatus c e.msg) = e.msg :=
  c2_mapped_errors_recorded DEFAULT_STATUS_MAP
    [ExcInstance.mk .blockedStatusError "boom",
      ExcInstance.mk .waitingStatusError "later"]
    (by decide)

/-- C3: an exception raised inside a scope whose exact class is not a key of
the mapping table is not suppressed: the scope exit leaves the manager's state
(including its recorded statuses) unchanged and the very same exception
propagates to the caller. -/
theorem c3_unmapped_error_propagates (sm : StatusManagerState) (e : ExcInstance)
    (h : lookupStatusMap sm.status_map e.kind = none) :
    runScope sm (some e) = .raised e sm := by
  have hexit : StatusManager.exit sm (some e) = .ok (false, sm) := by
    show (match lookupStatusMap sm.status_map e.kind with
      | none => Except.ok (false, sm)
      | some v =>
        match pyCall v e.msg with
        | .error err => Except.error err
        | .ok status =>
          Except.ok (true, { sm with statuses := sm.statuses ++ [status] })) =
      Except.ok (false, sm)
    rw [h]
  rw [runScope, hexit]

theorem c3_witness :
    runScope ⟨[], DEFAULT_STATUS_MAP⟩
        (some ⟨.derived .blockedStatusError "MyBlockedSubError", "m"⟩) =
      .raised ⟨.derived .blockedStatusError "MyBlockedSubError", "m"⟩
        ⟨[], DEFAULT_STATUS_MAP⟩ :=
  c3_unmapped_error_propagates ⟨[], DEFAULT_STATUS_MAP⟩
    ⟨.derived .blockedStatusError "MyBlockedSubError", "m"⟩ rfl

/-- C4 counterexample: a sequence containing a status outside the four
recognized tiers does not necessarily fail — here the unrecognized status
follows a Blocked status, the scan short-circuits, and the Blocked status is
returned with no error. -/
theorem c4_counterexample :
    get_first_worst_status
        [StatusValue.blocked "b", StatusValue.otherStatus "FancyStatus" "x"] =
      .ok (some (StatusValue.blocked "b")) ∧
    isRecognized (StatusValue.otherStatus "FancyStatus" "x") = false :=
  ⟨rfl, rfl⟩

/-- C4 amended: the Selector fails with the `TypeError` naming the offending
status exactly when the first unrecognized status in the sequence is not
preceded by any Blocked-tier status; an unrecognized status after a Blocked
one is silently skipped by the short-circuit. -/
theorem c4_amended_unrecognized (pre : List StatusValue) (x : StatusValue)
    (post : List StatusValue)
    (hpre : ∀ s ∈ pre, isRecognized s = true ∧ s.isBlocked = false)
    (hx : isRecognized x = false) :
    get_first_worst_status (pre ++ x :: post) =
      .error (.unrecognizedStatus x) := by
  have hlen : ¬ (pre ++ x :: post).length = 0 := by simp
  rw [get_first_worst_status, if_neg hlen, loopResult,
    selectorLoop_error_at_unrecognized pre ⟨none, none, none, none⟩ x post hpre hx]

theorem c4_amended_witness :
    get_first_worst_status
        [StatusValue.waiting "w", StatusValue.otherStatus "FancyStatus" "x",
          StatusValue.blocked "b"] =
      .error (.unrecognizedStatus (StatusValue.otherStatus "FancyStatus" "x")) :=
  c4_amended_unrecognized [StatusValue.waiting "w"]
    (StatusValue.otherStatus "FancyStatus" "x") [StatusValue.blocked "b"]
    (by decide) rfl

/-- C5 counterexample: a mapping table whose value is `StatusBase` itself — a
status classifier, but not one of the four recognized tiers — is accepted by
construction rather than rejected. -/
theorem c5_counterexample :
    StatusManager.init
        (some [(.excClass .blockedStatusError, .statusClass .statusBaseClass)]) =
      .ok ⟨[], [(.excClass .blockedStatusError, .statusClass .statusBaseClass)]⟩ ∧
    isRecognizedTierClass .statusBaseClass = false :=
  ⟨rfl, rfl⟩

/-- C5 amended: construction with a non-empty table succeeds (storing the
table unchanged) exactly when every key is an `Exception` subclass and every
value is a `StatusBase` subclass — membership of values in the four recognized
tiers is not required; otherwise validation raises a `TypeError` naming the
first offending entry, rejecting the whole table. -/
theorem c5_amended_validation (entries : List (MapKey × MapValue))
    (hne : entries ≠ []) :
    (entries.all (fun kv => goodKey kv.1 && goodValue kv.2) = true →
      StatusManager.init (some entries) = .ok ⟨[], entries⟩) ∧
    (entries.all (fun kv => goodKey kv.1 && goodValue kv.2) = false →
      ∃ err, StatusManager.init (some entries) = .error err) := by
  cases entries with
  | nil => exact absurd rfl hne
  | cons kv rest =>
    have hinit : StatusManager.init (some (kv :: rest)) =
        match _validate_status_map (kv :: rest) with
        | .error e => .error e
        | .ok _ => .ok ⟨[], kv :: rest⟩ := rfl
    constructor
    · intro hall
      rw [hinit, validate_ok_of_all_good _ hall]
    · intro hall
      obtain ⟨err, herr⟩ := validate_error_of_bad _ hall
      exact ⟨err, by rw [hinit, herr]⟩

theorem c5_witness :
    ([(MapKey.excClass .blockedStatusError,
        MapValue.statusClass .activeStatusClass)].all
          (fun kv => goodKey kv.1 && goodValue kv.2) = true →
      StatusManager.init
          (some [(MapKey.excClass .blockedStatusError,
            MapValue.statusClass .activeStatusClass)]) =
        .ok ⟨[], [(MapKey.excClass .blockedStatusError,
          MapValue.statusClass .activeStatusClass)]⟩) ∧
    ([(MapKey.excClass .blockedStatusError,
        MapValue.statusClass .activeStatusClass)].all
          (fun kv => goodKey kv.1 && goodValue kv.2) = false →
      ∃ err, StatusManager.init
          (some [(MapKey.excClass .blockedStatusError,
            MapValue.statusClass .activeStatusClass)]) = .error err) :=
  c5_amended_validation
    [(MapKey.excClass .blockedStatusError, MapValue.statusClass .activeStatusClass)]
    (by decide)

/-- C6: `worst()` on a manager with zero recorded statuses returns an
Active-tier status with the empty message, whatever the mapping table is, and
raises nothing. -/
theorem c6_worst_empty_is_active (m : List (MapKey × MapValue)) :
    StatusManager.worst ⟨[], m⟩ = .ok (some (StatusValue.active "")) := rfl

/-- C7: `get_first_worst_status` invoked directly on the empty sequence raises
the `ValueError` and synthesizes no default status. -/
theorem c7_selector_empty_fails :
    get_first_worst_status [] = .error (.emptyInput "No statuses provided") := rfl

/-- C8: constructing with no table uses `DEFAULT_STATUS_MAP`, which maps
exactly the three conventional error classes to the Blocked, Waiting and
Maintenance status classes respectively and has no Active-tier value. -/
theorem c8_default_status_map :
    StatusManager.init none = .ok ⟨[], DEFAULT_STATUS_MAP⟩ ∧
    DEFAULT_STATUS_MAP =
      [ (.excClass .blockedStatusError, .statusClass .blockedStatusClass),
        (.excClass .waitingStatusError, .statusClass .waitingStatusClass),
        (.excClass .maintenanceStatusError, .statusClass .maintenanceStatusClass) ] ∧
    ∀ kv ∈ DEFAULT_STATUS_MAP, kv.2 ≠ MapValue.statusClass .activeStatusClass := by
  refine ⟨rfl, rfl, ?_⟩
  decide

/-- C9: supplying an explicitly empty (falsy) table is the same as supplying
none — the default table is substituted, so the resulting manager state is
identical. -/
theorem c9_empty_map_uses_default :
    StatusManager.init (some []) = StatusManager.init none ∧
    StatusManager.init (some []) = .ok ⟨[], DEFAULT_STATUS_MAP⟩ :=
  ⟨rfl, rfl⟩

/-- C10: on a non-empty sequence of recognized statuses the Selector returns
one of the sequence's own elements — it never constructs a new status or
alters a message. -/
theorem c10_result_is_element (l : List StatusValue) (h1 : l ≠ [])
    (h2 : ∀ s ∈ l, isRecognized s = true) :
    ∃ s, get_first_worst_status l = .ok (some s) ∧ s ∈ l := by
  cases l with
  | nil => exact absurd rfl h1
  | cons x rest =>
    have hsome := specFirstWorst_isSome x rest (h2 x (List.mem_cons_self x rest))
    obtain ⟨s, hs⟩ := Option.isSome_iff_exists.mp hsome
    exact ⟨s, by rw [gfws_eq_spec _ h1 h2, hs], specFirstWorst_mem _ s hs⟩

theorem c10_witness :
    ∃ s, get_first_worst_status
        [StatusValue.maintenance "deploying", StatusValue.blocked "broken"] =
        .ok (some s) ∧
      s ∈ [StatusValue.maintenance "deploying", StatusValue.blocked "broken"] :=
  c10_result_is_element
    [StatusValue.maintenance "deploying", StatusValue.blocked "broken"]
    (by decide) (by decide)
